import Mathlib

/-!
Verification of the run-state reconstruction and resumable correction
protocol of the workforce-dev repository.

The definitions below are a shallow embedding of the Python sources:

* `inspectRunStatus`   — `OrchestratorAgent._inspect_run_status`
  (src/agentic_systems/agents/orchestrator_agent.py, lines 90-163);
* `detectInitialFile`  — `OrchestratorAgent._detect_initial_file` (165-343);
* `detectCorrectedFile` — `OrchestratorAgent._detect_corrected_file` (382-498);
* `planFn`             — `OrchestratorAgent.plan` (500-714);
* `handleCustomOrchestration` — `SimpleIntakeAgent._handle_custom_orchestration`
  (src/agentic_systems/agents/simple_intake_agent.py, lines 224-514);
* `resumeCall`         — `SimpleIntakeAgent.resume` (549-732).

File-system reads performed by the Python code are modelled by explicit
evidence/file records passed to the functions; JSON dictionaries become
structures whose optional fields model absent keys, with Python truthiness
(`None`, `0`, empty collections are falsy) made explicit where the source
relies on it.
-/

namespace WorkforceDev

/-- Orchestrator-level states, mirroring `OrchestratorState(Enum)`. -/
inductive OrchestratorState where
  | COMPLETED_OK
  | HALTED_VALIDATION_ERRORS
  | HALTED_APPROVAL_REJECTED
  | AWAITING_PARTNER_UPLOAD
  | RESUMED_VALIDATION_FAILED_AGAIN
  | AWAITING_HITL
  | READY_TO_RESUME
  deriving DecidableEq, Repr

/-- The fields of `manifest.json` read by `_inspect_run_status`.
`hitl_status` and `staff_approval_status` are `manifest.get(...)` (may be
absent = `none`); `resume_available` is `manifest.get('resume_available',
False)`. -/
structure Manifest where
  hitl_status : Option String
  staff_approval_status : Option String
  resume_available : Bool
  orchestrator_status : Option String
  deriving DecidableEq, Repr

/-- The fields of `resume_state.json` used by the orchestrator and by
`SimpleIntakeAgent.resume`.  Optional fields model keys that may be absent
or hold JSON `null`; `resume_attempt_count` defaults to 0 via
`resume_state.get('resume_attempt_count', 0)` and `validation_passed` via
`resume_state.get('validation_passed', False)`. -/
structure ResumeStateJson where
  original_file_path : Option String
  partner_error_report_path : Option String
  corrected_file_path : Option String
  last_corrected_file_path : Option String
  last_corrected_file_mtime : Option Nat
  resume_attempt_count : Nat
  validation_passed : Bool
  halt_reason : Option String
  current_phase : Option String
  deriving DecidableEq, Repr

/-- Python truthiness of an optional number: `None` and `0` are falsy. -/
def truthyOptNat : Option Nat → Bool
  | none => false
  | some m => m != 0

/-- The contents of a run's evidence directory, as far as
`_inspect_run_status` reads it: `manifest.json` and `resume_state.json`,
each `none` when the file does not exist. -/
structure EvidenceStore where
  manifest : Option Manifest
  resumeState : Option ResumeStateJson
  deriving DecidableEq, Repr

/-- A file-system operation performed on the evidence directory.  The
embedding records the trace of operations so that read-only behaviour is a
provable statement rather than an assumption. -/
inductive FSOp where
  | readManifest
  | readResumeState
  | writeManifest (m : Manifest)
  | writeResumeState (r : ResumeStateJson)
  deriving DecidableEq, Repr

/-- Whether an operation is a read. -/
def FSOp.isRead : FSOp → Bool
  | .readManifest => true
  | .readResumeState => true
  | _ => false

/-- Apply a trace of file-system operations to an evidence store. -/
def applyOps : List FSOp → EvidenceStore → EvidenceStore
  | [], ev => ev
  | .readManifest :: ops, ev => applyOps ops ev
  | .readResumeState :: ops, ev => applyOps ops ev
  | .writeManifest m :: ops, ev => applyOps ops { ev with manifest := some m }
  | .writeResumeState r :: ops, ev => applyOps ops { ev with resumeState := some r }

/-- Result record of `_inspect_run_status`, mirroring
`OrchestratorStateData`. -/
structure OrchestratorStateData where
  state : OrchestratorState
  halt_reason : Option String
  current_phase : Option String
  partner_error_report_path : Option String
  last_corrected_file_path : Option String
  resume_attempt_count : Nat
  run_id : Option String
  deriving DecidableEq, Repr

/-- `OrchestratorAgent._inspect_run_status` (orchestrator_agent.py 90-163),
with the trace of file operations it performs.  The code opens
`manifest.json` and `resume_state.json` read-only when they exist and
derives the state:

* default `COMPLETED_OK`;
* from the manifest, when `hitl_status == "halted"`: rejected approval,
  else resume available, else validation errors;
* then, when `resume_state.json` exists and `resume_attempt_count > 0`,
  the state is overridden according to `validation_passed`. -/
def inspectRunStatusT (run_id : String) (ev : EvidenceStore) :
    OrchestratorStateData × List FSOp :=
  let base : OrchestratorState × Option String × Option String :=
    match ev.manifest with
    | none => (.COMPLETED_OK, none, none)
    | some manifest =>
      if manifest.hitl_status == some "halted" then
        if manifest.staff_approval_status == some "rejected" then
          (.HALTED_APPROVAL_REJECTED, some "Staff approval rejected",
            some "AWAITING_HITL")
        else if manifest.resume_available then
          (.AWAITING_PARTNER_UPLOAD,
            some "Validation errors - awaiting partner correction",
            some "AWAITING_PARTNER")
        else
          (.HALTED_VALIDATION_ERRORS, some "Validation errors",
            some "AWAITING_HITL")
      else (.COMPLETED_OK, none, none)
  let manifestOps : List FSOp :=
    match ev.manifest with
    | none => []
    | some _ => [.readManifest]
  match ev.resumeState with
  | none =>
    ({ state := base.1
       halt_reason := base.2.1
       current_phase := base.2.2
       partner_error_report_path := none
       last_corrected_file_path := none
       resume_attempt_count := 0
       run_id := some run_id }, manifestOps)
  | some resume_state =>
    let n := resume_state.resume_attempt_count
    let final : OrchestratorState × Option String × Option String :=
      if n > 0 && !resume_state.validation_passed then
        (.RESUMED_VALIDATION_FAILED_AGAIN,
          some (s!"Validation failed again after {n} resume attempt(s)"),
          some "AWAITING_PARTNER")
      else if n > 0 && resume_state.validation_passed then
        (.COMPLETED_OK, none, some "COMPLETED")
      else base
    ({ state := final.1
       halt_reason := final.2.1
       current_phase := final.2.2
       partner_error_report_path := resume_state.partner_error_report_path
       last_corrected_file_path := resume_state.corrected_file_path
       resume_attempt_count := n
       run_id := some run_id }, manifestOps ++ [.readResumeState])

/-- The derived state data of `_inspect_run_status` (first component of
`inspectRunStatusT`). -/
def inspectRunStatus (run_id : String) (ev : EvidenceStore) :
    OrchestratorStateData :=
  (inspectRunStatusT run_id ev).1

/-- The ordered derivation rule of spec §4.1, written from the spec's own
words (for comparison with `inspectRunStatus`, which is translated from the
source): four ordered manifest rules, then the resume-state override. -/
def specStateRule (ev : EvidenceStore) : OrchestratorState :=
  let hitl : Option String := match ev.manifest with
    | none => none
    | some m => m.hitl_status
  let approval : Option String := match ev.manifest with
    | none => none
    | some m => m.staff_approval_status
  let resumeAvail : Bool := match ev.manifest with
    | none => false
    | some m => m.resume_available
  let base : OrchestratorState :=
    if hitl == some "halted" && approval == some "rejected" then
      .HALTED_APPROVAL_REJECTED
    else if hitl == some "halted" && resumeAvail then
      .AWAITING_PARTNER_UPLOAD
    else if hitl == some "halted" then
      .HALTED_VALIDATION_ERRORS
    else
      .COMPLETED_OK
  match ev.resumeState with
  | none => base
  | some rs =>
    if rs.resume_attempt_count > 0 && !rs.validation_passed then
      .RESUMED_VALIDATION_FAILED_AGAIN
    else if rs.resume_attempt_count > 0 && rs.validation_passed then
      .COMPLETED_OK
    else base

end WorkforceDev

namespace WorkforceDev

/-- C1: the state derived by `_inspect_run_status` coincides, on every
evidence store, with the ordered rule of spec §4.1 (manifest rules 1-4,
then the resume-state override). -/
theorem inspect_matches_spec_rule (run_id : String) (ev : EvidenceStore) :
    (inspectRunStatus run_id ev).state = specStateRule ev := by
  unfold inspectRunStatus inspectRunStatusT specStateRule
  rcases ev with ⟨m, r⟩
  rcases m with _ | m
  · rcases r with _ | r
    · rfl
    · by_cases hn : r.resume_attempt_count > 0 <;>
        by_cases hv : r.validation_passed <;>
        simp [hn, hv]
  · rcases r with _ | r
    · by_cases hh : m.hitl_status == some "halted"
      · by_cases ha : m.staff_approval_status == some "rejected"
        · simp [hh, ha]
        · by_cases hr : m.resume_available <;> simp [hh, ha, hr]
      · simp [hh]
    · by_cases hn : r.resume_attempt_count > 0 <;>
        by_cases hv : r.validation_passed <;>
        by_cases hh : m.hitl_status == some "halted" <;>
        first
        | (by_cases ha : m.staff_approval_status == some "rejected" <;>
           by_cases hr : m.resume_available <;>
           simp [hh, ha, hr, hn, hv])
        | simp [hh, hn, hv]

/-- C9: `_inspect_run_status` is deterministic and side-effect free: its
operation trace consists of reads only, replaying the trace leaves the
evidence store unchanged, and re-invoking it on the resulting store returns
an identical result (state and details) with an identical trace. -/
theorem inspect_deterministic_readonly (run_id : String) (ev : EvidenceStore) :
    (∀ op ∈ (inspectRunStatusT run_id ev).2, op.isRead = true) ∧
    applyOps (inspectRunStatusT run_id ev).2 ev = ev ∧
    inspectRunStatusT run_id (applyOps (inspectRunStatusT run_id ev).2 ev) =
      inspectRunStatusT run_id ev := by
  rcases ev with ⟨m, r⟩
  rcases m with _ | m <;> rcases r with _ | r <;>
    refine ⟨?_, rfl, rfl⟩ <;>
    intro op hop <;>
    simp only [inspectRunStatusT, List.mem_append, List.mem_singleton,
      List.mem_cons, List.not_mem_nil, or_false, false_or] at hop <;>
    (try rcases hop with rfl | rfl) <;> (try rcases hop with rfl) <;> rfl

end WorkforceDev

namespace WorkforceDev

/-! ## File signatures and content-based detection -/

/-- A file as the detectors see it: its path, the raw header column names
(`none` when pandas cannot read the file — unsupported suffix, encoding
failure, missing file), and its modification time.  This models the inputs
of `_get_file_column_signature` (orchestrator_agent.py 345-380). -/
structure FileInfo where
  path : String
  rawColumns : Option (List String)
  mtime : Nat
  deriving DecidableEq, Repr

/-- Lower-case a character (ASCII, as Python `.lower()` behaves on the
header strings in play). -/
def lowerChar (c : Char) : Char :=
  if c.toNat ≥ 65 ∧ c.toNat ≤ 90 then Char.ofNat (c.toNat + 32) else c

/-- Python `str.lower()`. -/
def lowerString (s : String) : String :=
  ⟨s.data.map lowerChar⟩

/-- Whitespace as stripped by Python `str.strip()`. -/
def isPyWhitespace (c : Char) : Bool :=
  c == ' ' || c == '\t' || c == '\n' || c == '\x0d' || c == '\x0c' || c == '\x0b'

/-- Python `str.strip()`: drop leading and trailing whitespace. -/
def pyStrip (s : String) : String :=
  ⟨((s.data.dropWhile isPyWhitespace).reverse.dropWhile isPyWhitespace).reverse⟩

/-- `str(col).strip().lower()`, the per-column normalization of
`_get_file_column_signature`. -/
def normalizeCol (s : String) : String :=
  lowerString (pyStrip s)

/-- Lexicographic (code-point) string order, as Python compares strings. -/
def strLeChars : List Char → List Char → Bool
  | [], _ => true
  | _ :: _, [] => false
  | c :: cs, d :: ds =>
    if c.toNat < d.toNat then true
    else if d.toNat < c.toNat then false
    else strLeChars cs ds

/-- Insert a string into a sorted list of strings. -/
def insertStr (s : String) : List String → List String
  | [] => [s]
  | t :: ts => if strLeChars s.data t.data then s :: t :: ts else t :: insertStr s ts

/-- Sort a list of strings (ascending), modelling Python's `sorted`. -/
def sortStrings : List String → List String
  | [] => []
  | s :: ss => insertStr s (sortStrings ss)

/-- `_get_file_column_signature`: the sorted tuple of normalized
(`str(col).strip().lower()`) column names together with the file's mtime,
or `none` when the file cannot be read. -/
def fileColumnSignature (f : FileInfo) : Option (List String × Nat) :=
  match f.rawColumns with
  | none => none
  | some cols => some (sortStrings (cols.map normalizeCol), f.mtime)

/-- `sub` is a prefix of `hay` (character lists). -/
def charPrefix : List Char → List Char → Bool
  | [], _ => true
  | _ :: _, [] => false
  | c :: cs, d :: ds => c == d && charPrefix cs ds

/-- `sub` occurs as a contiguous substring of `hay` (character lists),
modelling Python's `in` operator on strings. -/
def charContains (hay sub : List Char) : Bool :=
  match hay with
  | [] => charPrefix sub []
  | _ :: rest => charPrefix sub hay || charContains rest sub

/-- Python's `sub in hay` for strings. -/
def strContains (hay sub : String) : Bool :=
  charContains hay.data sub.data

/-- Python's `' '.join(columns)`. -/
def joinSpace : List String → String
  | [] => ""
  | [s] => s
  | s :: rest => s ++ " " ++ joinSpace rest

/-- Python truthiness of an optional string: `None` and `""` are falsy. -/
def truthyOptStr : Option String → Bool
  | none => false
  | some s => s != ""

/-- Python truthiness of an optional tuple of columns: `None` and the empty
tuple are falsy. -/
def truthyOptList : Option (List String) → Bool
  | none => false
  | some l => !l.isEmpty

/-- `candidate_files.sort(key=lambda x: x[1], reverse=True)`: stable sort by
mtime, greatest first. -/
def sortCandidatesDesc (l : List (FileInfo × Nat)) : List (FileInfo × Nat) :=
  List.insertionSort (fun a b => b.2 ≤ a.2) l

/-- Shared tail of both detectors: `if not candidate_files: return None`,
then sort by mtime descending and return the first candidate. -/
def selectLatest (l : List (FileInfo × Nat)) : Option FileInfo :=
  match sortCandidatesDesc l with
  | [] => none
  | c :: _ => some c.1

/-- The fixed required-field probe of `_detect_initial_file`:
`required_columns = ['first name', 'last name', 'date of birth']`. -/
def requiredColumns : List String := ["first name", "last name", "date of birth"]

/-- The `has_required` test of `_detect_initial_file` (lines 250-254):
`columns_lower = ' '.join(columns).lower()` and
`any(req_col in columns_lower for req_col in required_columns)`. -/
def hasRequiredProbe (columns : List String) : Bool :=
  let columns_lower := lowerString (joinSpace columns)
  requiredColumns.any (fun req_col => strContains columns_lower req_col)

/-- `OrchestratorAgent._detect_initial_file` (orchestrator_agent.py
165-343, debug logging elided): over the partner uploads directory
(`none` when `partner_uploads_dir` is unset or missing), keep readable
files whose joined lowercase column string contains **any** of the three
probe strings, and return the candidate with the greatest mtime. -/
def detectInitialFile (partnerUploadsDir : Option (List FileInfo)) :
    Option FileInfo :=
  match partnerUploadsDir with
  | none => none
  | some files =>
    let candidate_files : List (FileInfo × Nat) :=
      files.filterMap (fun file_path =>
        match fileColumnSignature file_path with
        | none => none
        | some (columns, mtime) =>
          if hasRequiredProbe columns then some (file_path, mtime) else none)
    selectLatest candidate_files

/-- A Python runtime error surfaced by the embedding. -/
inductive PyError where
  | nameError
  deriving DecidableEq, Repr

/-- The environment read by `_detect_corrected_file`:
`uploadsRunDir` is the listing of `sharepoint_sim_root/uploads/<run_id>`
(`none` when the root is unset or the directory is missing);
`evidenceDirSet` is whether `self.evidence_dir` is set; `resumeStateFile`
is the parsed `resume_state.json` when it exists; `statFile` resolves an
absolute path to the file on disk, if any. -/
structure OrchEnv where
  uploadsRunDir : Option (List FileInfo)
  evidenceDirSet : Bool
  resumeStateFile : Option ResumeStateJson
  statFile : String → Option FileInfo

/-- `OrchestratorAgent._detect_corrected_file` (orchestrator_agent.py
382-498, debug logging elided).  Mirrors the source exactly, including:

* the early `return None` when the uploads directory is unavailable;
* the fact that `resume_state_path` is only assigned under
  `if self.evidence_dir:` (line 401-402) yet dereferenced unconditionally
  (line 404), so the call raises `NameError` when `evidence_dir` is unset;
* `expected_signature` left `None` when `original_file_path` is absent, the
  original file is gone, or unreadable — in which case **no** column filter
  is applied (`candidate_sets_match = True`);
* Python truthiness in `if expected_signature:` (empty tuple falsy) and
  `if last_processed_mtime and mtime <= last_processed_mtime:` (`None`/`0`
  falsy);
* the superset check `expected_set.issubset(candidate_set)`;
* greatest-mtime selection among surviving candidates.

`resumeExpectedLast` embeds lines 399-423 (deriving `expected_signature`
and `last_processed_mtime` from `resume_state.json`), `correctedCandidates`
lines 425-470 (the candidate loop), and `detectCorrectedFile` the whole
method. -/
def resumeExpectedLast (statFile : String → Option FileInfo)
    (resumeStateFile : Option ResumeStateJson) :
    Option (List String) × Option Nat :=
  match resumeStateFile with
  | none => (none, none)
  | some resume_state =>
    let expected_signature : Option (List String) :=
      match resume_state.original_file_path with
      | none => none
      | some p =>
        match statFile p with
        | none => none
        | some orig_file =>
          match fileColumnSignature orig_file with
          | none => none
          | some sig => some sig.1
    let last_processed_mtime : Option Nat :=
      resume_state.last_corrected_file_mtime
    let last_processed_mtime : Option Nat :=
      if !truthyOptNat last_processed_mtime &&
          truthyOptStr resume_state.last_corrected_file_path then
        match resume_state.last_corrected_file_path with
        | some lp => (statFile lp).map (fun fi => fi.mtime)
        | none => none
      else last_processed_mtime
    (expected_signature, last_processed_mtime)

/-- The candidate loop of `_detect_corrected_file` (lines 425-470): keep
readable files whose column set is a superset of `expected_signature`
(no filter when that is `None` or empty), excluding files with
`mtime <= last_processed_mtime` when that value is truthy. -/
def correctedCandidates (files : List FileInfo)
    (expected_signature : Option (List String))
    (last_processed_mtime : Option Nat) : List (FileInfo × Nat) :=
  files.filterMap (fun file_path =>
    match fileColumnSignature file_path with
    | none => none
    | some (columns, mtime) =>
      let candidate_sets_match : Bool :=
        if truthyOptList expected_signature then
          (expected_signature.getD []).all (fun c => columns.contains c)
        else true
      if candidate_sets_match then
        if truthyOptNat last_processed_mtime ∧
            mtime ≤ last_processed_mtime.getD 0 then none
        else some (file_path, mtime)
      else none)

/-- `OrchestratorAgent._detect_corrected_file`, assembled from the pieces
above: early return when the uploads directory is unavailable, `NameError`
when `evidence_dir` is unset, then candidate filtering and greatest-mtime
selection. -/
def detectCorrectedFile (env : OrchEnv) : Except PyError (Option FileInfo) :=
  match env.uploadsRunDir with
  | none => .ok none
  | some files =>
    if !env.evidenceDirSet then .error .nameError
    else
      let esLp := resumeExpectedLast env.statFile env.resumeStateFile
      .ok (selectLatest (correctedCandidates files esLp.1 esLp.2))

/-- One entry of the structured step list returned by `plan`. -/
structure PlanStep where
  step : String
  tool : String
  args : List (String × String)
  deriving DecidableEq, Repr

/-- The environment read by `OrchestratorAgent.plan`: the contents of the
effective evidence directory (the explicit `self.evidence_dir`, or the
default `core/audit/runs/<run_id>` directory when unset), whether
`self.evidence_dir` is set, and the directories and disk seen by the two
detectors. -/
structure PlanEnv where
  evidenceDirSet : Bool
  evidence : EvidenceStore
  uploadsRunDir : Option (List FileInfo)
  partnerUploadsDir : Option (List FileInfo)
  statFile : String → Option FileInfo

/-- The `OrchEnv` that `plan` hands to `_detect_corrected_file`: the
corrected-file detector reads `resume_state.json` from `self.evidence_dir`
(only reachable when it is set, in which case it is the same directory
`plan` checked). -/
def PlanEnv.orchEnv (env : PlanEnv) : OrchEnv :=
  { uploadsRunDir := env.uploadsRunDir
    evidenceDirSet := env.evidenceDirSet
    resumeStateFile := env.evidence.resumeState
    statFile := env.statFile }

/-- `OrchestratorAgent.plan` (orchestrator_agent.py 500-714, debug logging
elided).  `run_id = inputs.get('run_id') or f"{partner}-{quarter}-{platform}"`
(Python `or`: an empty string falls through to the default).  A run is
"existing" iff `manifest.json` or `resume_state.json` exists; in that
branch the plan is `[inspect_run_status]`, plus `resume_from_corrected_file`
followed by an immediate return when `_detect_corrected_file` finds a file.
The state-based step selection of source lines 600-636
(`wait_for_partner_correction`, `publish_error_report_*`,
`handle_persistent_failure`) is nested after the `return steps` inside
`if corrected_file:` and is therefore unreachable; the embedding mirrors
that by returning `steps` unchanged when no corrected file is found.
A `NameError` raised by `_detect_corrected_file` propagates. -/
def planFn (env : PlanEnv) (partner quarter platform : String)
    (run_id_input : Option String) : Except PyError (List PlanStep) :=
  let run_id :=
    if truthyOptStr run_id_input then run_id_input.getD ""
    else partner ++ "-" ++ quarter ++ "-" ++ platform
  if env.evidence.manifest.isSome || env.evidence.resumeState.isSome then
    let steps : List PlanStep :=
      [{ step := "inspect_run_status", tool := "inspect_run_status",
         args := [("run_id", run_id)] }]
    match detectCorrectedFile env.orchEnv with
    | .error e => .error e
    | .ok (some corrected_file) =>
      .ok (steps ++
        [{ step := "resume_from_corrected_file", tool := "SimpleIntakeAgent",
           args := [("run_id", run_id),
                    ("corrected_file_path", corrected_file.path)] }])
    | .ok none => .ok steps
  else
    match detectInitialFile env.partnerUploadsDir with
    | some initial_file =>
      .ok [{ step := "ingest_and_validate_initial", tool := "SimpleIntakeAgent",
             args := [("run_id", run_id), ("file_path", initial_file.path),
                      ("partner", partner), ("quarter", quarter),
                      ("platform", platform)] }]
    | none =>
      .ok [{ step := "wait_for_initial_upload", tool := "wait_for_initial_upload",
             args := [("partner", partner), ("quarter", quarter)] }]

/-! ## HITL approval gate (`SimpleIntakeAgent._handle_custom_orchestration`) -/

/-- The externally visible actions performed by
`SimpleIntakeAgent._handle_custom_orchestration`, in execution order.
`generateEmail` records the `secure_link_url` and `access_code` arguments
passed to `GeneratePartnerEmailTool` (`none` = parameter left at its `None`
default, so the email carries no link/code); `uploadSharePoint` records the
`folder_type` argument ("internal" or "partner"). -/
inductive HitlAction where
  | collectAggregates
  | generateErrorReport
  | generateEmail (secure_link_url : Option String) (access_code : Option String)
  | uploadSharePoint (folder_type : String)
  | requestApproval
  | createSecureLink
  | writeResumeState (rs : ResumeStateJson)
  deriving DecidableEq, Repr

/-- `SimpleIntakeAgent._handle_custom_orchestration`
(simple_intake_agent.py 224-514) as the ordered list of actions it
performs, as a function of the validation outcome (`error_count`), the
staff approval outcome (`approval_ok` = `approval_result.ok`,
`approval_status` = `approval_result.data.get('approval_status')`), and the
secure-link tool's outputs.  The pre-approval email (line 303) is generated
without `secure_link_url`/`access_code`; only inside the
`approval_status == 'approved'` branch (387-506) are the partner-facing
upload, the secure link, the post-approval email carrying the link and
code, and the initial `resume_state.json` produced.  On rejection the run
halts with no further actions (509-512). -/
def handleCustomOrchestration (tool_name : String) (error_count : Nat)
    (approval_ok : Bool) (approval_status : Option String)
    (secure_link_url access_code : String)
    (run_id original_file_path partner_error_report_path : String) :
    List HitlAction :=
  if tool_name = "ValidateStagedDataTool" then
    if error_count > 0 then
      [.collectAggregates, .generateErrorReport, .generateEmail none none,
       .uploadSharePoint "internal", .requestApproval] ++
      (if approval_ok && (approval_status == some "approved") then
        [.uploadSharePoint "partner", .createSecureLink,
         .generateEmail (some secure_link_url) (some access_code),
         .writeResumeState
           { original_file_path := some original_file_path
             partner_error_report_path := some partner_error_report_path
             corrected_file_path := none
             last_corrected_file_path := none
             last_corrected_file_mtime := none
             resume_attempt_count := 0
             validation_passed := false
             halt_reason :=
               some "Validation errors - awaiting partner correction"
             current_phase := some "AWAITING_PARTNER" }]
       else [])
    else []
  else []

/-! ## Resume (`SimpleIntakeAgent.resume`) -/

/-- The per-call inputs of `SimpleIntakeAgent.resume` that the embedding
abstracts over: whether `IngestPartnerFileTool` succeeded on the corrected
file, the validation outcome (`validate_result.ok` and `error_count`), and
the corrected file's path and mtime (`corrected_file_mtime` is `None` when
`stat` raises `OSError`; Python truthiness makes a `0` mtime equivalent). -/
structure ResumeCallInput where
  ingest_ok : Bool
  validate_ok : Bool
  error_count : Nat
  corrected_path : String
  corrected_mtime : Option Nat
  deriving DecidableEq, Repr

/-- `SimpleIntakeAgent.resume` (simple_intake_agent.py 549-732), reduced to
its effect on the persisted `resume_state.json` and the halted flag:

* no `resume_state.json` → return halted, nothing written;
* ingestion failure → return halted, nothing written;
* validation passed (`validate_result.ok and error_count == 0`) → write
  back the state with `validation_passed = True`, cleared halt fields,
  `last_corrected_file_path`/`mtime` updated, and
  `resume_attempt_count = get(...) + 1`; not halted;
* otherwise → write back the state with `validation_passed = False`,
  halt fields set, report/corrected-file fields updated, and
  `resume_attempt_count = get(...) + 1`; halted. -/
def resumeCall (persisted : Option ResumeStateJson) (inp : ResumeCallInput)
    (error_report_path : String) : Option ResumeStateJson × Bool :=
  match persisted with
  | none => (none, true)
  | some resume_state =>
    if !inp.ingest_ok then (some resume_state, true)
    else if inp.validate_ok && inp.error_count == 0 then
      (some { resume_state with
          corrected_file_path := some inp.corrected_path
          validation_passed := true
          halt_reason := none
          current_phase := some "COMPLETED"
          last_corrected_file_path := some inp.corrected_path
          last_corrected_file_mtime :=
            if truthyOptNat inp.corrected_mtime then inp.corrected_mtime
            else resume_state.last_corrected_file_mtime
          resume_attempt_count := resume_state.resume_attempt_count + 1 },
        false)
    else
      (some { resume_state with
          corrected_file_path := some inp.corrected_path
          validation_passed := false
          halt_reason := some
            (s!"Validation still has {inp.error_count} errors - partner corrections incomplete")
          current_phase := some "AWAITING_PARTNER"
          partner_error_report_path := some error_report_path
          last_corrected_file_path := some inp.corrected_path
          last_corrected_file_mtime :=
            if truthyOptNat inp.corrected_mtime then inp.corrected_mtime
            else resume_state.last_corrected_file_mtime
          resume_attempt_count := resume_state.resume_attempt_count + 1 },
        true)

/-- The `resume_attempt_count` recorded in the persisted resume state
(0 when no resume state exists, matching `get('resume_attempt_count', 0)`). -/
def persistedCount : Option ResumeStateJson → Nat
  | none => 0
  | some rs => rs.resume_attempt_count

/-- The persisted resume state after a sequence of `resume()` calls. -/
def resumeSeq (persisted : Option ResumeStateJson)
    (calls : List (ResumeCallInput × String)) : Option ResumeStateJson :=
  match calls with
  | [] => persisted
  | (inp, rp) :: rest => resumeSeq (resumeCall persisted inp rp).1 rest

/-! ## Helper lemmas about greatest-mtime selection -/

/-- The comparator used by `sortCandidatesDesc` is total. -/
theorem mtimeDesc_total :
    IsTotal (FileInfo × Nat) (fun a b => b.2 ≤ a.2) :=
  ⟨fun a b => le_total b.2 a.2⟩

/-- The comparator used by `sortCandidatesDesc` is transitive. -/
theorem mtimeDesc_trans :
    IsTrans (FileInfo × Nat) (fun a b => b.2 ≤ a.2) :=
  ⟨fun _ _ _ hab hbc => le_trans hbc hab⟩

/-- If `selectLatest` returns a file then that file occurs among the
candidates with an mtime no smaller than any candidate's. -/
theorem selectLatest_spec {l : List (FileInfo × Nat)} {f : FileInfo}
    (h : selectLatest l = some f) :
    ∃ m, (f, m) ∈ l ∧ ∀ p ∈ l, p.2 ≤ m := by
  haveI := mtimeDesc_total
  haveI := mtimeDesc_trans
  unfold selectLatest sortCandidatesDesc at h
  have hperm := List.perm_insertionSort (fun a b : FileInfo × Nat => b.2 ≤ a.2) l
  have hsort := List.sorted_insertionSort (fun a b : FileInfo × Nat => b.2 ≤ a.2) l
  revert h hperm hsort
  cases List.insertionSort (fun a b : FileInfo × Nat => b.2 ≤ a.2) l with
  | nil => intro h _ _; simp at h
  | cons c rest =>
    intro h hperm hsort
    obtain ⟨c1, c2⟩ := c
    simp only [Option.some.injEq] at h
    subst h
    rw [List.sorted_cons] at hsort
    refine ⟨c2, hperm.mem_iff.mp (List.mem_cons_self _ _), ?_⟩
    intro p hp
    have hmem := hperm.mem_iff.mpr hp
    cases hmem with
    | head => exact le_refl _
    | tail _ h' => exact hsort.1 p h'

/-- If any candidate exists, `selectLatest` returns a file. -/
theorem selectLatest_of_mem {l : List (FileInfo × Nat)} {p : FileInfo × Nat}
    (hp : p ∈ l) : ∃ f, selectLatest l = some f := by
  unfold selectLatest sortCandidatesDesc
  have hperm := List.perm_insertionSort (fun a b : FileInfo × Nat => b.2 ≤ a.2) l
  revert hperm
  cases List.insertionSort (fun a b : FileInfo × Nat => b.2 ≤ a.2) l with
  | nil =>
    intro hperm
    rw [hperm.symm.eq_nil] at hp
    cases hp
  | cons c rest => intro _; exact ⟨c.1, rfl⟩

end WorkforceDev

namespace WorkforceDev

/-! ## C10: NameError in `_detect_corrected_file` -/

/-- C10: whenever the sharepoint simulation uploads directory for the run
exists (so the early return is not taken) but `self.evidence_dir` is unset,
`_detect_corrected_file` does not return: the local `resume_state_path` is
assigned only under `if self.evidence_dir:` yet dereferenced
unconditionally, raising `NameError`. -/
theorem detectCorrected_nameError (env : OrchEnv) (files : List FileInfo)
    (h1 : env.uploadsRunDir = some files) (h2 : env.evidenceDirSet = false) :
    detectCorrectedFile env = .error .nameError := by
  unfold detectCorrectedFile
  rw [h1]
  simp [h2]

/-- A concrete environment exercising C10: uploads directory present with
one readable file, evidence directory unset. -/
def c10Env : OrchEnv :=
  { uploadsRunDir := some
      [{ path := "sharepoint_simulation/uploads/demo-Q1-minimal/fix.csv"
         rawColumns := some ["first name", "last name", "date of birth"]
         mtime := 5 }]
    evidenceDirSet := false
    resumeStateFile := none
    statFile := fun _ => none }

/-- Witness for C10 at `c10Env`. -/
theorem detectCorrected_nameError_witness :
    detectCorrectedFile c10Env = .error .nameError :=
  detectCorrected_nameError c10Env
    [{ path := "sharepoint_simulation/uploads/demo-Q1-minimal/fix.csv"
       rawColumns := some ["first name", "last name", "date of birth"]
       mtime := 5 }] rfl rfl

/-! ## C2: the state-based planning block is dead code -/

/-- Evidence of a run that has failed validation three times: manifest
halted with `resume_available`, resume state with `resume_attempt_count = 3`
and `validation_passed = false`. -/
def c2Evidence : EvidenceStore :=
  { manifest := some
      { hitl_status := some "halted"
        staff_approval_status := none
        resume_available := true
        orchestrator_status := none }
    resumeState := some
      { original_file_path := none
        partner_error_report_path := some "outputs/partner_error_report.xlsx"
        corrected_file_path := some "uploads/demo-Q1-minimal/fix3.csv"
        last_corrected_file_path := some "uploads/demo-Q1-minimal/fix3.csv"
        last_corrected_file_mtime := some 50
        resume_attempt_count := 3
        validation_passed := false
        halt_reason := some "Validation still has 2 errors - partner corrections incomplete"
        current_phase := some "AWAITING_PARTNER" } }

/-- The planning environment for C2: the run above, an existing but empty
uploads directory (no new corrected file to detect), evidence dir set. -/
def c2Env : PlanEnv :=
  { evidenceDirSet := true
    evidence := c2Evidence
    uploadsRunDir := some []
    partnerUploadsDir := none
    statFile := fun _ => none }

/-- C2 (code bug): for a run in state `RESUMED_VALIDATION_FAILED_AGAIN`
with `resume_attempt_count = 3` and no corrected file detected, `plan`
returns only `[inspect_run_status]` — it contains neither the
`handle_persistent_failure` step the spec requires nor any other step,
because the state-based step selection (source lines 600-636) is nested
after the `return steps` of the corrected-file branch and is unreachable.
(The same dead code means the `< 3` case plans no
`publish_error_report_partner`/`wait_for_partner_correction` either.) -/
theorem plan_persistent_failure_step_missing :
    (inspectRunStatus "demo-Q1-minimal" c2Evidence).state =
      OrchestratorState.RESUMED_VALIDATION_FAILED_AGAIN ∧
    (inspectRunStatus "demo-Q1-minimal" c2Evidence).resume_attempt_count = 3 ∧
    detectCorrectedFile c2Env.orchEnv = .ok none ∧
    planFn c2Env "demo" "Q1" "minimal" (some "demo-Q1-minimal") =
      .ok [{ step := "inspect_run_status", tool := "inspect_run_status",
             args := [("run_id", "demo-Q1-minimal")] }] ∧
    ([{ step := "inspect_run_status", tool := "inspect_run_status",
        args := [("run_id", "demo-Q1-minimal")] }] : List PlanStep).all
      (fun s => s.step != "handle_persistent_failure" &&
        s.step != "wait_for_partner_correction" &&
        s.step != "wait_for_initial_upload" &&
        s.step != "publish_error_report_partner") = true :=
  ⟨rfl, rfl, rfl, rfl, rfl⟩

/-! ## C6: resume_attempt_count monotonicity -/

/-- A persisted resume state that has already seen two failed resumes. -/
def c6State : ResumeStateJson :=
  { original_file_path := some "sharepoint_simulation/uploads/demo/initial.csv"
    partner_error_report_path := some "outputs/partner_error_report.xlsx"
    corrected_file_path := some "uploads/demo-Q1-minimal/fix2.csv"
    last_corrected_file_path := some "uploads/demo-Q1-minimal/fix2.csv"
    last_corrected_file_mtime := some 40
    resume_attempt_count := 2
    validation_passed := false
    halt_reason := some "Validation still has 3 errors - partner corrections incomplete"
    current_phase := some "AWAITING_PARTNER" }

/-- C6 counterexample: a `resume()` call whose ingestion of the corrected
file fails returns halted without writing, so the persisted
`resume_attempt_count` stays at 2 instead of increasing by exactly 1. -/
theorem resume_ingest_failure_skips_increment :
    (resumeCall (some c6State)
        { ingest_ok := false, validate_ok := false, error_count := 0,
          corrected_path := "uploads/demo-Q1-minimal/fix3.csv",
          corrected_mtime := some 41 }
        "outputs/partner_error_report.xlsx").1 = some c6State ∧
    (resumeCall (some c6State)
        { ingest_ok := false, validate_ok := false, error_count := 0,
          corrected_path := "uploads/demo-Q1-minimal/fix3.csv",
          corrected_mtime := some 41 }
        "outputs/partner_error_report.xlsx").2 = true ∧
    persistedCount (resumeCall (some c6State)
        { ingest_ok := false, validate_ok := false, error_count := 0,
          corrected_path := "uploads/demo-Q1-minimal/fix3.csv",
          corrected_mtime := some 41 }
        "outputs/partner_error_report.xlsx").1 ≠
      persistedCount (some c6State) + 1 :=
  ⟨rfl, rfl, by decide⟩

/-- Helper: one `resume()` call never decreases the persisted count. -/
theorem resumeCall_count_le (persisted : Option ResumeStateJson)
    (inp : ResumeCallInput) (rp : String) :
    persistedCount persisted ≤ persistedCount (resumeCall persisted inp rp).1 := by
  rcases persisted with _ | rs
  · simp [resumeCall, persistedCount]
  · unfold resumeCall
    by_cases hi : inp.ingest_ok <;>
      by_cases hv : inp.validate_ok && inp.error_count == 0 <;>
      simp [hi, hv, persistedCount]

/-- C6 (amended): the persisted `resume_attempt_count` never decreases
across any sequence of `resume()` calls, and on every call that actually
reaches a validation outcome (resume state present and ingestion of the
corrected file succeeded) it is written back as exactly its prior value
plus one, in both the validation-passed and validation-failed outcomes;
the early-exit paths (missing resume state, ingestion failure) leave it
unchanged. -/
theorem resume_attempt_count_monotonic (persisted : Option ResumeStateJson)
    (inp : ResumeCallInput) (rp : String)
    (calls : List (ResumeCallInput × String)) :
    persistedCount persisted ≤ persistedCount (resumeCall persisted inp rp).1 ∧
    (∀ rs, persisted = some rs → inp.ingest_ok = true →
      persistedCount (resumeCall persisted inp rp).1 =
        rs.resume_attempt_count + 1) ∧
    persistedCount persisted ≤ persistedCount (resumeSeq persisted calls) := by
  refine ⟨resumeCall_count_le persisted inp rp, ?_, ?_⟩
  · intro rs hrs hi
    subst hrs
    unfold resumeCall
    by_cases hv : inp.validate_ok && inp.error_count == 0 <;>
      simp [hi, hv, persistedCount]
  · induction calls generalizing persisted with
    | nil => simp [resumeSeq]
    | cons c rest ih =>
      obtain ⟨cinp, crp⟩ := c
      exact le_trans (resumeCall_count_le persisted cinp crp)
        (ih (resumeCall persisted cinp crp).1)

/-- Witness for C6 (amended) at a concrete successful resume: the count
goes from 2 to exactly 3. -/
theorem resume_attempt_count_monotonic_witness :
    persistedCount (resumeCall (some c6State)
        { ingest_ok := true, validate_ok := true, error_count := 0,
          corrected_path := "uploads/demo-Q1-minimal/fix3.csv",
          corrected_mtime := some 41 }
        "outputs/partner_error_report.xlsx").1 =
      c6State.resume_attempt_count + 1 :=
  (resume_attempt_count_monotonic (some c6State)
      { ingest_ok := true, validate_ok := true, error_count := 0,
        corrected_path := "uploads/demo-Q1-minimal/fix3.csv",
        corrected_mtime := some 41 }
      "outputs/partner_error_report.xlsx" []).2.1 c6State rfl rfl

/-! ## C4: approval gates partner-facing disclosure -/

/-- C4: in `_handle_custom_orchestration`, the partner-facing upload, the
secure link, and any email carrying a secure-link URL are produced only
when the staff approval result is ok with status "approved"; before the
`requestApproval` action no such action occurs (the pre-approval email is
generated with `secure_link_url`/`access_code` left `None`); and on
rejection none of them occurs and no resume state is written. -/
theorem approval_gates_partner_disclosure (tool_name : String)
    (error_count : Nat) (approval_ok : Bool) (approval_status : Option String)
    (url code run_id ofp perp : String) :
    (HitlAction.uploadSharePoint "partner" ∈
        handleCustomOrchestration tool_name error_count approval_ok
          approval_status url code run_id ofp perp →
      approval_ok = true ∧ approval_status = some "approved") ∧
    (HitlAction.createSecureLink ∈
        handleCustomOrchestration tool_name error_count approval_ok
          approval_status url code run_id ofp perp →
      approval_ok = true ∧ approval_status = some "approved") ∧
    (∀ u c, HitlAction.generateEmail (some u) c ∈
        handleCustomOrchestration tool_name error_count approval_ok
          approval_status url code run_id ofp perp →
      approval_ok = true ∧ approval_status = some "approved") ∧
    (∀ a ∈ (handleCustomOrchestration tool_name error_count approval_ok
          approval_status url code run_id ofp perp).takeWhile
        (fun a => a != HitlAction.requestApproval),
      a ≠ HitlAction.uploadSharePoint "partner" ∧
      a ≠ HitlAction.createSecureLink ∧
      ∀ u c, a ≠ HitlAction.generateEmail (some u) c) ∧
    (approval_status = some "rejected" →
      HitlAction.uploadSharePoint "partner" ∉
        handleCustomOrchestration tool_name error_count approval_ok
          approval_status url code run_id ofp perp ∧
      HitlAction.createSecureLink ∉
        handleCustomOrchestration tool_name error_count approval_ok
          approval_status url code run_id ofp perp ∧
      ∀ rs : ResumeStateJson, HitlAction.writeResumeState rs ∉
        handleCustomOrchestration tool_name error_count approval_ok
          approval_status url code run_id ofp perp) := by
  unfold handleCustomOrchestration
  by_cases ht : tool_name = "ValidateStagedDataTool" <;>
    by_cases he : error_count > 0 <;>
    by_cases ha : (approval_ok && (approval_status == some "approved")) = true
  all_goals
    simp only [ht, he, ha, if_true, if_false, ite_true, ite_false,
      Bool.false_eq_true, List.append_nil]
  all_goals
    constructor
  all_goals
    try constructor
  all_goals
    try constructor
  all_goals
    try constructor
  all_goals
    simp_all

/-- Witness for C4: with an approved result, the partner upload occurs and
the theorem yields approval facts; all hypotheses discharged concretely. -/
theorem approval_gates_partner_disclosure_witness :
    true = true ∧ (some "approved" : Option String) = some "approved" :=
  (approval_gates_partner_disclosure "ValidateStagedDataTool" 2 true
      (some "approved") "file://link" "1234" "demo-Q1-minimal"
      "uploads/demo/initial.csv" "outputs/partner_error_report.xlsx").1
    (by decide)

/-! ## C5: initial-file detection uses `any`, not `all`, over the probe -/

/-- A readable file whose only column normalizes to "first name": it lacks
both "last name" and "date of birth". -/
def c5File : FileInfo :=
  { path := "sharepoint_simulation/uploads/demo/only_first.csv"
    rawColumns := some ["First Name "]
    mtime := 10 }

/-- C5 counterexample: `_detect_initial_file` returns a file that is
missing two of the three required-field probe columns, because the source
uses `any(req_col in columns_lower ...)` rather than requiring all three
probes. -/
theorem detectInitial_missing_probe_returned :
    fileColumnSignature c5File = some (["first name"], 10) ∧
    strContains "first name" "last name" = false ∧
    strContains "first name" "date of birth" = false ∧
    detectInitialFile (some [c5File]) = some c5File :=
  ⟨by decide, by decide, by decide, by decide⟩

/-- Helper: a readable file's signature always carries its own mtime. -/
theorem fileColumnSignature_mtime {f : FileInfo} {cols : List String}
    {mt : Nat} (h : fileColumnSignature f = some (cols, mt)) : mt = f.mtime := by
  unfold fileColumnSignature at h
  cases hrc : f.rawColumns with
  | none => rw [hrc] at h; cases h
  | some cs =>
    rw [hrc] at h
    simp only [Option.some.injEq, Prod.mk.injEq] at h
    exact h.2.symm

/-- C5 (amended): `_detect_initial_file` filters the folder's readable
files to exactly those for which **at least one** of the three probe
strings ("first name", "last name", "date of birth") occurs as a substring
of the space-joined normalized column names, and among those returns one
with the greatest mtime; a readable file matching the filter guarantees a
result. -/
theorem detectInitial_spec (files : List FileInfo) :
    (∀ f, detectInitialFile (some files) = some f →
      f ∈ files ∧
      (∃ cols, fileColumnSignature f = some (cols, f.mtime) ∧
        hasRequiredProbe cols = true) ∧
      (∀ g ∈ files, ∀ cols, fileColumnSignature g = some (cols, g.mtime) →
        hasRequiredProbe cols = true → g.mtime ≤ f.mtime)) ∧
    (∀ g ∈ files, ∀ cols, fileColumnSignature g = some (cols, g.mtime) →
      hasRequiredProbe cols = true →
      ∃ f, detectInitialFile (some files) = some f) := by
  constructor
  · intro f h
    unfold detectInitialFile at h
    obtain ⟨m, hmem, hmax⟩ := selectLatest_spec h
    rw [List.mem_filterMap] at hmem
    obtain ⟨a, ha, hga⟩ := hmem
    split at hga
    next => cases hga
    next cols mt hsig =>
      split at hga
      next hprobe =>
        simp only [Option.some.injEq, Prod.mk.injEq] at hga
        obtain ⟨rfl, rfl⟩ := hga
        have hmt := fileColumnSignature_mtime hsig
        subst hmt
        refine ⟨ha, ⟨cols, hsig, hprobe⟩, ?_⟩
        intro g hg cols' hsig' hprobe'
        exact hmax (g, g.mtime)
          (List.mem_filterMap.mpr ⟨g, hg, by simp [hsig', hprobe']⟩)
      next hprobe => cases hga
  · intro g hg cols hsig hprobe
    exact @selectLatest_of_mem _ (g, g.mtime)
      (List.mem_filterMap.mpr ⟨g, hg, by simp [hsig, hprobe]⟩)

/-- A second upload with all three probe columns and a later mtime. -/
def c5FullFile : FileInfo :=
  { path := "sharepoint_simulation/uploads/demo/q1_roster.csv"
    rawColumns := some ["First Name", "Last Name", "Date of Birth", "Zip"]
    mtime := 20 }

/-- Witness for C5 (amended) on a concrete two-file folder. -/
theorem detectInitial_spec_witness :
    c5FullFile ∈ [c5File, c5FullFile] ∧
    (∃ cols, fileColumnSignature c5FullFile = some (cols, c5FullFile.mtime) ∧
      hasRequiredProbe cols = true) ∧
    (∀ g ∈ [c5File, c5FullFile], ∀ cols,
      fileColumnSignature g = some (cols, g.mtime) →
      hasRequiredProbe cols = true → g.mtime ≤ c5FullFile.mtime) :=
  (detectInitial_spec [c5File, c5FullFile]).1 c5FullFile (by decide)

/-! ## C3 / C7: corrected-file detection -/

/-- Helper: `_detect_corrected_file` with an existing uploads directory and
a set evidence directory reduces to candidate filtering and selection. -/
theorem detectCorrectedFile_eq (env : OrchEnv) (files : List FileInfo)
    (hU : env.uploadsRunDir = some files) (hE : env.evidenceDirSet = true) :
    detectCorrectedFile env = .ok (selectLatest (correctedCandidates files
      (resumeExpectedLast env.statFile env.resumeStateFile).1
      (resumeExpectedLast env.statFile env.resumeStateFile).2)) := by
  unfold detectCorrectedFile
  rw [hU]
  simp [hE]

/-- Helper: when the original file still exists with a readable, nonempty
column signature and `last_corrected_file_mtime` is present and nonzero,
lines 399-423 produce exactly that expected signature and threshold. -/
theorem resumeExpectedLast_strict (statFile : String → Option FileInfo)
    (rs : ResumeStateJson) (origPath : String) (orig : FileInfo)
    (ecols : List String) (lastM : Nat)
    (hO : rs.original_file_path = some origPath)
    (hS : statFile origPath = some orig)
    (hsig : fileColumnSignature orig = some (ecols, orig.mtime))
    (hL : rs.last_corrected_file_mtime = some lastM)
    (hl0 : lastM ≠ 0) :
    resumeExpectedLast statFile (some rs) = (some ecols, some lastM) := by
  simp [resumeExpectedLast, hO, hS, hsig, hL, truthyOptNat, hl0]

/-- Helper: when the recorded original file no longer exists and no
last-corrected mtime or path is recorded, no expected signature and no
mtime threshold are derived. -/
theorem resumeExpectedLast_fallback (statFile : String → Option FileInfo)
    (rs : ResumeStateJson) (origPath : String)
    (hO : rs.original_file_path = some origPath)
    (hS : statFile origPath = none)
    (hL : rs.last_corrected_file_mtime = none)
    (hLp : rs.last_corrected_file_path = none) :
    resumeExpectedLast statFile (some rs) = (none, none) := by
  simp [resumeExpectedLast, hO, hS, hL, hLp, truthyOptNat, truthyOptStr]

/-- Helper: membership in the candidate list under an expected signature
and a nonzero threshold: readable, superset columns, mtime strictly above
the threshold. -/
theorem mem_correctedCandidates_strict {files : List FileInfo}
    {ecols : List String} {lastM : Nat} (hne : ecols.isEmpty = false)
    (hl0 : lastM ≠ 0) (p : FileInfo × Nat) :
    p ∈ correctedCandidates files (some ecols) (some lastM) ↔
      p.1 ∈ files ∧
      (∃ cols, fileColumnSignature p.1 = some (cols, p.2) ∧
        ∀ c ∈ ecols, cols.contains c = true) ∧
      lastM < p.2 := by
  unfold correctedCandidates
  rw [List.mem_filterMap]
  constructor
  · rintro ⟨a, ha, hga⟩
    split at hga
    next => cases hga
    next cols mt hsig =>
      simp only [truthyOptList, hne, Bool.not_false, if_true, truthyOptNat,
        Option.getD_some] at hga
      split at hga
      next hcsm =>
        split at hga
        next hle => cases hga
        next hle =>
          simp only [Option.some.injEq, Prod.mk.injEq] at hga
          obtain ⟨rfl, rfl⟩ := hga
          rw [List.all_eq_true] at hcsm
          refine ⟨ha, ⟨cols, hsig, hcsm⟩, ?_⟩
          rcases Nat.lt_or_ge lastM mt with hlt | hge
          · exact hlt
          · exact absurd ⟨by simpa using hl0, hge⟩ hle
      next hcsm => cases hga
  · rintro ⟨ha, ⟨cols, hsig, hsup⟩, hlt⟩
    refine ⟨p.1, ha, ?_⟩
    rw [hsig]
    simp only [truthyOptList, hne, Bool.not_false, if_true, truthyOptNat,
      Option.getD_some]
    rw [if_pos (List.all_eq_true.mpr hsup)]
    rw [if_neg (by simp [Nat.not_le.mpr hlt])]

/-- Helper: membership in the candidate list when neither an expected
signature nor a threshold is available: every readable file qualifies. -/
theorem mem_correctedCandidates_fallback {files : List FileInfo}
    (p : FileInfo × Nat) :
    p ∈ correctedCandidates files none none ↔
      p.1 ∈ files ∧ ∃ cols, fileColumnSignature p.1 = some (cols, p.2) := by
  unfold correctedCandidates
  rw [List.mem_filterMap]
  constructor
  · rintro ⟨a, ha, hga⟩
    split at hga
    next => cases hga
    next cols mt hsig =>
      simp [truthyOptList, truthyOptNat] at hga
      obtain ⟨rfl, rfl⟩ := hga
      exact ⟨ha, cols, hsig⟩
  · rintro ⟨ha, cols, hsig⟩
    refine ⟨p.1, ha, ?_⟩
    rw [hsig]
    simp [truthyOptList, truthyOptNat]

/-- The original upload of run C3, still present on disk, recorded in the
resume state, and — crucially — sitting inside the run's uploads folder. -/
def c3Orig : FileInfo :=
  { path := "sharepoint_simulation/uploads/demo-Q1-minimal/data.csv"
    rawColumns := some ["first name", "last name"]
    mtime := 10 }

/-- Resume state for C3: original recorded, last corrected mtime 5. -/
def c3Resume : ResumeStateJson :=
  { original_file_path := some "sharepoint_simulation/uploads/demo-Q1-minimal/data.csv"
    partner_error_report_path := some "outputs/partner_error_report.xlsx"
    corrected_file_path := none
    last_corrected_file_path := none
    last_corrected_file_mtime := some 5
    resume_attempt_count := 1
    validation_passed := false
    halt_reason := some "Validation errors - awaiting partner correction"
    current_phase := some "AWAITING_PARTNER" }

/-- Detection environment for C3. -/
def c3Env : OrchEnv :=
  { uploadsRunDir := some [c3Orig]
    evidenceDirSet := true
    resumeStateFile := some c3Resume
    statFile := fun p =>
      if p = "sharepoint_simulation/uploads/demo-Q1-minimal/data.csv" then
        some c3Orig
      else none }

/-- C3 counterexample: `_detect_corrected_file` returns exactly the file
recorded as `original_file_path` — the source never excludes it, so a
still-present original whose mtime exceeds `last_corrected_file_mtime`
(its columns trivially a superset of themselves) is selected. -/
theorem detectCorrected_returns_original :
    c3Resume.original_file_path = some c3Orig.path ∧
    detectCorrectedFile c3Env = .ok (some c3Orig) :=
  ⟨rfl, rfl⟩

/-- C3 (amended): with the original file still readable (nonempty expected
columns) and a nonzero recorded `last_corrected_file_mtime`, any file
returned by `_detect_corrected_file` comes from the run's uploads folder,
has a column set that is a superset of the expected columns, has mtime
strictly greater than the recorded threshold, and has the greatest mtime
among all such candidates — but it is **not** guaranteed to differ from
`original_file_path` (see the counterexample). -/
theorem detectCorrected_spec (env : OrchEnv) (files : List FileInfo)
    (rs : ResumeStateJson) (origPath : String) (orig : FileInfo)
    (ecols : List String) (lastM : Nat) (f : FileInfo)
    (hU : env.uploadsRunDir = some files)
    (hE : env.evidenceDirSet = true)
    (hR : env.resumeStateFile = some rs)
    (hO : rs.original_file_path = some origPath)
    (hS : env.statFile origPath = some orig)
    (hsig : fileColumnSignature orig = some (ecols, orig.mtime))
    (hne : ecols.isEmpty = false)
    (hL : rs.last_corrected_file_mtime = some lastM)
    (hl0 : lastM ≠ 0)
    (h : detectCorrectedFile env = .ok (some f)) :
    f ∈ files ∧
    (∃ cols, fileColumnSignature f = some (cols, f.mtime) ∧
      ∀ c ∈ ecols, cols.contains c = true) ∧
    lastM < f.mtime ∧
    (∀ g ∈ files, ∀ cols, fileColumnSignature g = some (cols, g.mtime) →
      (∀ c ∈ ecols, cols.contains c = true) → lastM < g.mtime →
      g.mtime ≤ f.mtime) := by
  rw [detectCorrectedFile_eq env files hU hE, hR,
    resumeExpectedLast_strict env.statFile rs origPath orig ecols lastM
      hO hS hsig hL hl0] at h
  simp only [Except.ok.injEq] at h
  obtain ⟨m, hmem, hmax⟩ := selectLatest_spec h
  rw [mem_correctedCandidates_strict hne hl0] at hmem
  obtain ⟨hmemf, ⟨cols, hsigf, hsup⟩, hlt⟩ := hmem
  have hm : m = f.mtime := fileColumnSignature_mtime hsigf
  subst hm
  refine ⟨hmemf, ⟨cols, hsigf, hsup⟩, hlt, ?_⟩
  intro g hg cols' hsig' hsup' hlt'
  exact hmax (g, g.mtime)
    ((mem_correctedCandidates_strict hne hl0 (g, g.mtime)).mpr
      ⟨hg, ⟨cols', hsig', hsup'⟩, hlt'⟩)

/-- A corrected upload for the C3 witness: superset columns, newer mtime. -/
def c3Corrected : FileInfo :=
  { path := "sharepoint_simulation/uploads/demo-Q1-minimal/data_fixed.csv"
    rawColumns := some ["first name", "last name", "notes"]
    mtime := 20 }

/-- Detection environment for the C3 witness: only the corrected upload is
in the uploads folder; the original lives elsewhere on disk. -/
def c3WEnv : OrchEnv :=
  { uploadsRunDir := some [c3Corrected]
    evidenceDirSet := true
    resumeStateFile := some c3Resume
    statFile := fun p =>
      if p = "sharepoint_simulation/uploads/demo-Q1-minimal/data.csv" then
        some c3Orig
      else none }

/-- Witness for C3 (amended) at a concrete detection. -/
theorem detectCorrected_spec_witness :
    c3Corrected ∈ [c3Corrected] ∧
    (∃ cols, fileColumnSignature c3Corrected = some (cols, c3Corrected.mtime) ∧
      ∀ c ∈ ["first name", "last name"], cols.contains c = true) ∧
    5 < c3Corrected.mtime ∧
    (∀ g ∈ [c3Corrected], ∀ cols,
      fileColumnSignature g = some (cols, g.mtime) →
      (∀ c ∈ ["first name", "last name"], cols.contains c = true) →
      5 < g.mtime → g.mtime ≤ c3Corrected.mtime) :=
  detectCorrected_spec c3WEnv [c3Corrected] c3Resume
    "sharepoint_simulation/uploads/demo-Q1-minimal/data.csv" c3Orig
    ["first name", "last name"] 5 c3Corrected rfl rfl rfl rfl rfl rfl
    (by decide) rfl (by decide) rfl

/-- A readable file with no probe column at all. -/
def c7Junk : FileInfo :=
  { path := "sharepoint_simulation/uploads/demo-Q1-minimal/inventory.csv"
    rawColumns := some ["zebra count", "enclosure"]
    mtime := 30 }

/-- Resume state for C7: the recorded original file is gone. -/
def c7Resume : ResumeStateJson :=
  { original_file_path := some "sharepoint_simulation/uploads/demo-Q1-minimal/gone.csv"
    partner_error_report_path := some "outputs/partner_error_report.xlsx"
    corrected_file_path := none
    last_corrected_file_path := none
    last_corrected_file_mtime := none
    resume_attempt_count := 1
    validation_passed := false
    halt_reason := some "Validation errors - awaiting partner correction"
    current_phase := some "AWAITING_PARTNER" }

/-- Detection environment for C7: original deleted, junk file uploaded. -/
def c7Env : OrchEnv :=
  { uploadsRunDir := some [c7Junk]
    evidenceDirSet := true
    resumeStateFile := some c7Resume
    statFile := fun _ => none }

/-- C7 counterexample: with the original deleted, `_detect_corrected_file`
applies **no** column filter at all (`candidate_sets_match` defaults to
`True`) and returns a readable file none of whose columns contains any of
the three required-field probe strings. -/
theorem detectCorrected_fallback_no_probe :
    c7Env.statFile "sharepoint_simulation/uploads/demo-Q1-minimal/gone.csv"
      = none ∧
    hasRequiredProbe ["enclosure", "zebra count"] = false ∧
    detectCorrectedFile c7Env = .ok (some c7Junk) :=
  ⟨rfl, by decide, rfl⟩

/-- C7 (amended): when the recorded original file no longer exists (and no
prior corrected mtime/path is recorded), `_detect_corrected_file` accepts
**every** readable candidate — with no required-field-probe filter — and
returns the one with the greatest mtime. -/
theorem detectCorrected_fallback_spec (env : OrchEnv) (files : List FileInfo)
    (rs : ResumeStateJson) (origPath : String) (f : FileInfo)
    (hU : env.uploadsRunDir = some files)
    (hE : env.evidenceDirSet = true)
    (hR : env.resumeStateFile = some rs)
    (hO : rs.original_file_path = some origPath)
    (hS : env.statFile origPath = none)
    (hL : rs.last_corrected_file_mtime = none)
    (hLp : rs.last_corrected_file_path = none)
    (h : detectCorrectedFile env = .ok (some f)) :
    f ∈ files ∧ f.rawColumns.isSome = true ∧
    (∀ g ∈ files, g.rawColumns.isSome = true → g.mtime ≤ f.mtime) := by
  rw [detectCorrectedFile_eq env files hU hE, hR,
    resumeExpectedLast_fallback env.statFile rs origPath hO hS hL hLp] at h
  simp only [Except.ok.injEq] at h
  obtain ⟨m, hmem, hmax⟩ := selectLatest_spec h
  rw [mem_correctedCandidates_fallback] at hmem
  obtain ⟨hmemf, cols, hsigf⟩ := hmem
  have hm : m = f.mtime := fileColumnSignature_mtime hsigf
  subst hm
  have hread : f.rawColumns.isSome = true := by
    unfold fileColumnSignature at hsigf
    cases hrc : f.rawColumns with
    | none => rw [hrc] at hsigf; cases hsigf
    | some cs => rfl
  refine ⟨hmemf, hread, ?_⟩
  intro g hg hgr
  cases hgc : g.rawColumns with
  | none => rw [hgc] at hgr; cases hgr
  | some cs =>
    exact hmax (g, g.mtime)
      ((mem_correctedCandidates_fallback (g, g.mtime)).mpr
        ⟨hg, sortStrings (cs.map normalizeCol), by
          unfold fileColumnSignature; rw [hgc]⟩)

/-- Witness for C7 (amended) at the junk-file environment. -/
theorem detectCorrected_fallback_spec_witness :
    c7Junk ∈ [c7Junk] ∧ c7Junk.rawColumns.isSome = true ∧
    (∀ g ∈ [c7Junk], g.rawColumns.isSome = true → g.mtime ≤ c7Junk.mtime) :=
  detectCorrected_fallback_spec c7Env [c7Junk] c7Resume
    "sharepoint_simulation/uploads/demo-Q1-minimal/gone.csv" c7Junk
    rfl rfl rfl rfl rfl rfl rfl rfl

/-! ## C8: resume file without a manifest -/

/-- An orphan resume state: one failed resume recorded, no manifest. -/
def c8Resume : ResumeStateJson :=
  { original_file_path := some "sharepoint_simulation/uploads/demo/initial.csv"
    partner_error_report_path := some "outputs/partner_error_report.xlsx"
    corrected_file_path := some "uploads/demo-Q1-minimal/fix1.csv"
    last_corrected_file_path := some "uploads/demo-Q1-minimal/fix1.csv"
    last_corrected_file_mtime := some 40
    resume_attempt_count := 1
    validation_passed := false
    halt_reason := some "Validation still has 2 errors - partner corrections incomplete"
    current_phase := some "AWAITING_PARTNER" }

/-- A perfectly good initial upload sitting in the partner uploads folder. -/
def c8InitialFile : FileInfo :=
  { path := "sharepoint_simulation/uploads/demo/q1_roster.csv"
    rawColumns := some ["First Name", "Last Name", "Date of Birth", "Zip"]
    mtime := 7 }

/-- Planning environment for C8: `resume_state.json` exists, `manifest.json`
does not; the run uploads folder exists but holds no new corrected file
(nothing newer than mtime 40); an initial file is available. -/
def c8Env : PlanEnv :=
  { evidenceDirSet := true
    evidence := { manifest := none, resumeState := some c8Resume }
    uploadsRunDir := some []
    partnerUploadsDir := some [c8InitialFile]
    statFile := fun _ => none }

/-- C8 counterexample: with a `resume_state.json` but no `manifest.json`,
`plan` does **not** treat the run as fresh — the `manifest or resume_state`
existence check routes it to the existing-run branch (no initial-file
detection, although a matching initial file is present), and
`_inspect_run_status` derives `RESUMED_VALIDATION_FAILED_AGAIN` from the
orphan resume file alone. -/
theorem plan_orphan_resume_not_fresh :
    c8Env.evidence.manifest = none ∧
    (inspectRunStatus "demo-Q1-minimal" c8Env.evidence).state =
      OrchestratorState.RESUMED_VALIDATION_FAILED_AGAIN ∧
    detectInitialFile c8Env.partnerUploadsDir = some c8InitialFile ∧
    planFn c8Env "demo" "Q1" "minimal" (some "demo-Q1-minimal") =
      .ok [{ step := "inspect_run_status", tool := "inspect_run_status",
             args := [("run_id", "demo-Q1-minimal")] }] :=
  ⟨rfl, rfl, rfl, rfl⟩

/-- C8 (amended): a run directory containing `resume_state.json` but no
`manifest.json` is treated as an **existing** run: `plan` starts with
`inspect_run_status` and never performs initial-file planning
(`ingest_and_validate_initial` / `wait_for_initial_upload`), and the
orphan resume file alone can drive the derived state to a resumed state
(see the counterexample). -/
theorem plan_orphan_resume_existing (env : PlanEnv) (rs : ResumeStateJson)
    (partner quarter platform : String) (rid : Option String)
    (steps : List PlanStep)
    (hM : env.evidence.manifest = none)
    (hR : env.evidence.resumeState = some rs)
    (hok : planFn env partner quarter platform rid = .ok steps) :
    (steps.head?.map (fun s => s.step)) = some "inspect_run_status" ∧
    ∀ s ∈ steps, s.step ≠ "ingest_and_validate_initial" ∧
      s.step ≠ "wait_for_initial_upload" := by
  unfold planFn at hok
  rw [hM, hR] at hok
  simp only [Option.isSome_none, Option.isSome_some, Bool.false_or,
    if_true] at hok
  split at hok
  next => cases hok
  next cf hd =>
    simp only [Except.ok.injEq] at hok
    subst hok
    refine ⟨rfl, ?_⟩
    intro s hs
    rcases List.mem_cons.mp hs with rfl | hs
    · exact ⟨by simp, by simp⟩
    · rcases List.mem_cons.mp hs with rfl | hs
      · exact ⟨by simp, by simp⟩
      · cases hs
  next hd =>
    simp only [Except.ok.injEq] at hok
    subst hok
    refine ⟨rfl, ?_⟩
    intro s hs
    rcases List.mem_cons.mp hs with rfl | hs
    · exact ⟨by simp, by simp⟩
    · cases hs

/-- The plan returned at the C8 counterexample environment. -/
def c8PlanSteps : List PlanStep :=
  [{ step := "inspect_run_status", tool := "inspect_run_status",
     args := [("run_id", "demo-Q1-minimal")] }]

/-- Witness for C8 (amended) at the concrete orphan-resume environment. -/
theorem plan_orphan_resume_existing_witness :
    (c8PlanSteps.head?.map (fun s => s.step)) = some "inspect_run_status" ∧
    ∀ s ∈ c8PlanSteps,
      s.step ≠ "ingest_and_validate_initial" ∧
      s.step ≠ "wait_for_initial_upload" :=
  plan_orphan_resume_existing c8Env c8Resume "demo" "Q1" "minimal"
    (some "demo-Q1-minimal") c8PlanSteps rfl rfl rfl

end WorkforceDev
